import Mathlib

/-
  Verification of the conversational retrieval-and-response orchestrator
  implemented in backend/src/QA_integration.py.

  The Python module is shallowly embedded: dictionaries become structures,
  Python exceptions become `Except` values, external collaborators (LLM
  clients, the graph store, the vector index) become explicit oracles, and
  observable side effects (collaborator invocations) are recorded in an
  event trace.  Values from the missing constants module
  (src/shared/constants.py) are modelled from the spec and marked as such.
-/

namespace QAIntegration

/-! ## Messages and stored history records -/

/-- A chat message as stored or exchanged.  The `type` field models the
LangChain message type (the role); a `none` type models a stored record whose
role is null and therefore unresolvable. -/
structure Msg where
  type : Option String
  content : String
deriving DecidableEq, Repr

/-- A raw stored history entry read from the graph store.  `none` models a
Python `None` record. -/
abbrev RawEntry := Option Msg

/-- Python exception values relevant to the embedded code, carrying the
exception class name and message used by the handlers. -/
inductive PyErr where
  | typeError (text : String)
  | valueError (text : String)
  | attributeError (text : String)
  | keyError (text : String)
  | validationError (text : String)
  | unboundLocal (name : String)
  | other (kind text : String)
deriving DecidableEq, Repr

/-- The pair f-string `type(e).name: str(e)` placed in the `error` field of a
failure envelope, modelled as an (exception kind, exception text) pair. -/
def pyErrKindText : PyErr → String × String
  | .typeError t => ("TypeError", t)
  | .valueError t => ("ValueError", t)
  | .attributeError t => ("AttributeError", t)
  | .keyError t => ("KeyError", t)
  | .validationError t => ("ValidationError", t)
  | .unboundLocal n => ("UnboundLocalError", n)
  | .other k t => (k, t)

/-! ## History validation (SafeNeo4jChatMessageHistory) -/

/-- The per-record validity test used by
SafeNeo4jChatMessageHistory._validate_and_cache_messages (and by
validate_and_clean_messages): the record must be truthy (not None) and its
type attribute must not be None. -/
def entryValid : RawEntry → Bool
  | some m => m.type.isSome
  | none => false

/-- The filtering pass of _validate_and_cache_messages: keep exactly the
well-formed records, in order. -/
def validMessages (raw : List RawEntry) : List Msg :=
  raw.filterMap fun e =>
    match e with
    | some m => if m.type.isSome then some m else none
    | none => none

/-- SafeNeo4jChatMessageHistory._validate_and_cache_messages: reading the raw
records may raise (modelled by the `Except` argument); any such error yields
the empty validated view instead of propagating. -/
def validate_and_cache_messages (readRaw : Except Unit (List RawEntry)) : List Msg :=
  match readRaw with
  | .ok raw => validMessages raw
  | .error _ => []

/-! ## Defensive document-name parsing (QA_RAG lines 828-842) -/

/-- A Python JSON value as produced by json.loads. -/
inductive PyJson where
  | null
  | bool (b : Bool)
  | num (n : Int)
  | str (s : String)
  | arr (elems : List PyJson)
  | obj (fields : List (String × PyJson))

/-- Python str.strip: drop the whitespace characters on both ends. -/
def pyStrip (s : String) : String :=
  ⟨((s.data.dropWhile Char.isWhitespace).reverse.dropWhile Char.isWhitespace).reverse⟩

/-- Python list(map(str.strip, elems)) over the elements of a JSON array:
every element must itself be a string, otherwise str.strip raises TypeError. -/
def mapStripElems : List PyJson → Except PyErr (List String)
  | [] => .ok []
  | .str s :: rest => (mapStripElems rest).map (fun l => pyStrip s :: l)
  | _ :: _ => .error (.typeError "descriptor strip requires a str object")

/-- Python list(map(str.strip, x)) for an arbitrary json.loads result `x`:
iterating a string yields its one-character strings, iterating an object
yields its keys, and null, booleans and numbers are not iterable (TypeError). -/
def pyMapStrip : PyJson → Except PyErr (List String)
  | .arr elems => mapStripElems elems
  | .str s => .ok (s.toList.map fun c => pyStrip c.toString)
  | .obj fields => .ok (fields.map fun p => pyStrip p.1)
  | .null => .error (.typeError "NoneType object is not iterable")
  | .bool _ => .error (.typeError "bool object is not iterable")
  | .num _ => .error (.typeError "int object is not iterable")

/-- The document_names argument of QA_RAG as supplied by the caller: Python
None, a string, or any non-string value. -/
inductive DocNamesInput where
  | none
  | str (s : String)
  | nonString

/-- Shared tail of the defensive parse: map str.strip over the loaded value,
normalizing every caught failure to the empty list. -/
def parseLoaded (loaded : Except Unit PyJson) : List String :=
  match loaded with
  | .error _ => []
  | .ok v =>
      match pyMapStrip v with
      | .error _ => []
      | .ok l => l

/-- The body of the defensive parse in QA_RAG: substitute the literal "[]"
for a missing, blank or non-string value, then json.loads and strip each
element; JSONDecodeError, TypeError and ValueError are caught and yield the
empty list.  The json.loads collaborator is passed in as `loads`. -/
def parse_document_names (loads : String → Except Unit PyJson) :
    DocNamesInput → List String
  | .none => parseLoaded (loads "[]")
  | .str s =>
      if pyStrip s = "" then parseLoaded (loads "[]") else parseLoaded (loads s)
  | .nonString => parseLoaded (loads "[]")

/-! ## Summarization (summarize_and_log) -/

/-- The class of the history object handed to summarize_and_log: the
durable SafeNeo4jChatMessageHistory wrapper (the default for every QA_RAG
turn) or the in-process ChatMessageHistory. -/
inductive HistoryBackend where
  | safeNeo4j
  | chatMessageHistory
deriving DecidableEq, Repr

/-- The attribute access history.add_user_message: ChatMessageHistory
appends a human message, but SafeNeo4jChatMessageHistory defines no
add_user_message method, so the lookup raises AttributeError. -/
def history_add_user_message (backend : HistoryBackend) (history : List Msg)
    (text : String) : Except PyErr (List Msg) :=
  match backend with
  | .safeNeo4j =>
      .error (.attributeError
        "SafeNeo4jChatMessageHistory object has no attribute add_user_message")
  | .chatMessageHistory =>
      .ok (history ++ [{ type := some "human", content := text }])

/-- summarize_and_log: given the summarization-chain collaborator, the
history object (its backend class and message state) and the in-memory
message list, return the success flag, the history state afterwards, and
whether the model was invoked.  An empty message list is a no-op returning
false.  Otherwise the model is invoked; on success the try block clears
the history (both backends clear without raising) and then calls
add_user_message, which on the durable wrapper raises AttributeError: the
except clause swallows it and returns false with the history left cleared.
Only on the in-process backend are the fixed marker and the summary
appended and true returned.  A model failure is swallowed, returning false
with the history unchanged. -/
def summarize_and_log (invokeChain : List Msg → Except PyErr Msg)
    (backend : HistoryBackend) (history : List Msg) (stored_messages : List Msg) :
    Bool × List Msg × Bool :=
  if stored_messages.isEmpty then
    (false, history, false)
  else
    match invokeChain stored_messages with
    | .error _ => (false, history, true)
    | .ok summary_message =>
        let history1 : List Msg := []
        match history_add_user_message backend history1
            "Our current conversation summary till now" with
        | .error _ => (false, history1, true)
        | .ok history2 => (true, history2 ++ [summary_message], true)

/-! ## Chat mode settings (get_chat_mode_settings) -/

/-- Modelled from the spec: the default mode name keying
CHAT_MODE_CONFIG_MAP, from the missing constants module; the spec names
vector as the baseline retrieval mode.  No claim depends on the value. -/
def CHAT_DEFAULT_MODE : String := "vector"

/-- Modelled from the spec: the graph-only mode name from the missing
constants module; the spec calls this mode graph. -/
def CHAT_GRAPH_MODE : String := "graph"

/-- Modelled from the spec: the hybrid entity-plus-vector mode name from the
missing constants module.  No claim depends on the value. -/
def CHAT_ENTITY_VECTOR_MODE : String := "entity_vector"

/-- Modelled from the spec: the global-community mode name from the missing
constants module.  No claim depends on the value. -/
def CHAT_GLOBAL_VECTOR_FULLTEXT_MODE : String := "global_vector"

/-- One settings dictionary from CHAT_MODE_CONFIG_MAP.  The `mode` field
models the "mode" key, absent (`none`) until get_chat_mode_settings writes
it.  Required string-valued settings model a missing key as the empty
string, matching the falsiness test in initialize_neo4j_vector. -/
structure ChatModeSettings where
  retrieval_query : String
  index_name : String
  keyword_index : String := ""
  node_label : String := ""
  embedding_node_property : String := ""
  text_node_properties : List String := []
  top_k : Nat := 0
  document_filter : Bool
  mode : Option String := none
deriving DecidableEq, Repr

/-- Python dictionaries are references: the configuration map stores
references into a heap of settings dictionaries. -/
abbrev SettingsHeap := Nat → ChatModeSettings

/-- CHAT_MODE_CONFIG_MAP as a map from mode name to the reference of its
settings dictionary. -/
structure SettingsMap where
  refOf : String → Option Nat

/-- get_chat_mode_settings: look up the requested mode, falling back to the
default-mode entry, then assign the "mode" key on the resolved dictionary.
Because the dictionary is aliased by the map, the assignment updates the
shared heap.  A missing default entry raises KeyError (the lookup of the
default is outside the try block); the except clause re-raises, so every
failure propagates. -/
def get_chat_mode_settings (settings_map : SettingsMap) (heap : SettingsHeap)
    (mode : String) : Except PyErr (Nat × SettingsHeap) :=
  match settings_map.refOf CHAT_DEFAULT_MODE with
  | none => .error (.keyError CHAT_DEFAULT_MODE)
  | some defaultRef =>
      let r := (settings_map.refOf mode).getD defaultRef
      let heap2 := Function.update heap r { heap r with mode := some mode }
      .ok (r, heap2)

/-! ## Retrieved documents and format_documents -/

/-- One chunk-detail record carried in document metadata.  Scores are
modelled as integers; only their ordering and equality matter to the
embedded code. -/
structure ChunkDetail where
  id : String
  score : Int
deriving DecidableEq, Repr

/-- The value of the entities key of document metadata.  Depending on the
retrieval query it is either a list of per-entity dictionaries (each
carrying an entityids value when the key is present) or a dictionary with
optional entityids and relationshipids lists. -/
inductive EntitiesMeta where
  | list (entries : List (Option String))
  | dict (entityids : Option (List String)) (relationshipids : Option (List String))
deriving DecidableEq, Repr

/-- One record of the communitydetails metadata list; the id key may be
absent, in which case format_documents raises KeyError for that document. -/
structure CommunityEntry where
  id : Option String
  summary : String := ""
deriving DecidableEq, Repr

/-- Document metadata as consumed by format_documents and
get_sources_and_chunks. -/
structure DocMeta where
  source : Option String := none
  entities : Option EntitiesMeta := none
  communitydetails : Option (List CommunityEntry) := none
  chunkdetails : List ChunkDetail := []
deriving DecidableEq, Repr

/-- The document state dictionary; query_similarity_score may be absent and
then defaults to 0. -/
structure DocState where
  query_similarity_score : Option Int := none
deriving DecidableEq, Repr

/-- A retrieved candidate document. -/
structure Doc where
  page_content : String
  metadata : DocMeta := {}
  state : DocState := {}
deriving DecidableEq, Repr

/-- The sort key of format_documents: doc.state.get with default 0. -/
def docScore (doc : Doc) : Int :=
  doc.state.query_similarity_score.getD 0

/-- The entity-id accumulator built by format_documents; each field models
one key of the Python entities dictionary, present only once setdefault has
touched it. -/
structure EntityAcc where
  entityids : Option (Finset String) := none
  relationshipids : Option (Finset String) := none
deriving DecidableEq

/-- The loop state of format_documents. -/
structure FormatAcc where
  formatted_docs : List String := []
  sources : Finset String := {}
  entities : EntityAcc := {}
  global_communities : List CommunityEntry := []
deriving DecidableEq

/-- The per-document context block appended to formatted_docs. -/
def formatDocBlock (source : String) (content : String) : String :=
  "Document start\n" ++
  "This Document belongs to the source " ++ source ++ "\n" ++
  "Content: " ++ content ++ "\n" ++
  "Document end\n"

/-- The entities-processing statements of the format_documents loop body.
In entity-vector mode the metadata is iterated as a list of per-entity
dictionaries; iterating a dictionary-shaped value instead yields its keys,
and indexing the entityids key string then raises TypeError.  In the other
modes a list-shaped value fails the key-membership tests harmlessly while a
dictionary-shaped value contributes its id lists. -/
def entitiesStep (mode : String) (acc : EntityAcc) (meta : DocMeta) :
    Except PyErr EntityAcc :=
  match meta.entities with
  | none => .ok acc
  | some em =>
      if mode = CHAT_ENTITY_VECTOR_MODE then
        match em with
        | .list entries =>
            let entity_ids := entries.filterMap id
            .ok { acc with
                  entityids := some ((acc.entityids.getD {}) ∪ entity_ids.toFinset) }
        | .dict eids _ =>
            if eids.isSome then
              .error (.typeError "string indices must be integers")
            else
              .ok { acc with entityids := some (acc.entityids.getD {}) }
      else
        match em with
        | .list _ => .ok acc
        | .dict eids rids =>
            let acc1 :=
              match eids with
              | some l => { acc with
                            entityids := some ((acc.entityids.getD {}) ∪ l.toFinset) }
              | none => acc
            let acc2 :=
              match rids with
              | some l => { acc1 with
                            relationshipids :=
                              some ((acc1.relationshipids.getD {}) ∪ l.toFinset) }
              | none => acc1
            .ok acc2

/-- The communitydetails-processing statements of the format_documents loop
body: extend the global list with the entries whose id is not yet present;
an entry without an id key raises KeyError before the list is extended. -/
def communitiesStep (global_communities : List CommunityEntry) (meta : DocMeta) :
    Except PyErr (List CommunityEntry) :=
  match meta.communitydetails with
  | none => .ok global_communities
  | some entries =>
      let existing_ids := global_communities.filterMap (fun e => e.id)
      if entries.all (fun e => e.id.isSome) then
        .ok (global_communities ++
          entries.filter (fun e =>
            match e.id with
            | some i => decide (i ∉ existing_ids)
            | none => false))
      else .error (.keyError "id")

/-- One iteration of the format_documents loop.  The per-document
try-except keeps the partial effects made before a failure (the source has
already been added) but skips the remaining statements, so a failing
document contributes no context block. -/
def format_doc_step (mode : String) (acc : FormatAcc) (doc : Doc) : FormatAcc :=
  let source := doc.metadata.source.getD "unknown"
  let acc0 := { acc with sources := insert source acc.sources }
  match entitiesStep mode acc0.entities doc.metadata with
  | .error _ => acc0
  | .ok ents =>
      let acc1 := { acc0 with entities := ents }
      match communitiesStep acc1.global_communities doc.metadata with
      | .error _ => acc1
      | .ok gcs =>
          { acc1 with
            global_communities := gcs,
            formatted_docs :=
              acc1.formatted_docs ++ [formatDocBlock source doc.page_content] }

/-- The CHAT_TOKEN_CUT_OFF scan of format_documents: the cutoff starts at 4
and the first table entry whose model-name tuple contains the model wins. -/
def prompt_token_cutoff : List (List String × Nat) → String → Nat
  | [], _ => 4
  | (model_names, value) :: rest, model =>
      if model_names.contains model then value else prompt_token_cutoff rest model

/-- The descending-score comparison used by the sort in format_documents. -/
def scoreDesc (a b : Doc) : Prop := docScore b ≤ docScore a

instance : DecidableRel scoreDesc := fun a b => by
  unfold scoreDesc; infer_instance

/-- format_documents: stable-sort the candidates by descending similarity
score (Python sorted with reverse true is a stable sort, modelled by
insertion sort), truncate to the model-specific cutoff, then run the
formatting loop.  The cut-off table CHAT_TOKEN_CUT_OFF lives in the missing
constants module and is passed in. -/
def format_documents (cutoff_table : List (List String × Nat))
    (documents : List Doc) (model : String) (mode : String) : FormatAcc :=
  let sorted_documents :=
    (documents.insertionSort scoreDesc).take (prompt_token_cutoff cutoff_table model)
  sorted_documents.foldl (format_doc_step mode) {}

/-- Whether the per-document body of the format_documents loop reaches its
final statement for this document, i.e. neither the entities step nor the
communities step raises: this fails exactly when entity-vector mode meets a
dictionary-shaped entities value whose entityids key is present, or when a
community entry lacks its id key. -/
def doc_format_ok (mode : String) (d : Doc) : Bool :=
  (match d.metadata.entities with
   | some (.dict eids _) => !(decide (mode = CHAT_ENTITY_VECTOR_MODE) && eids.isSome)
   | _ => true) &&
  (match d.metadata.communitydetails with
   | some entries => entries.all (fun e => e.id.isSome)
   | Option.none => true)

instance : IsTotal Doc scoreDesc :=
  ⟨fun a b => le_total (docScore b) (docScore a)⟩

instance : IsTrans Doc scoreDesc :=
  ⟨fun _ _ _ hab hbc => le_trans hbc hab⟩

/-- A retrieved document whose community metadata lacks the id key, making
the per-document loop body of format_documents raise KeyError. -/
def badCommunityDoc : Doc :=
  { page_content := "chunk body",
    metadata := { source := some "doc.pdf",
                  communitydetails := some [{ id := Option.none }] } }

/-! ## Response envelope and collaborators -/

/-- The nodedetails block of a synthesis result. -/
structure NodeDetails where
  chunkdetails : List ChunkDetail := []
  entitydetails : Option EntityAcc := none
  communitydetails : List CommunityEntry := []
deriving DecidableEq

/-- The response envelope returned by QA_RAG.  It is the union of the
dictionary keys built on the different paths; a key a path does not set
keeps its default.  The metric_details key, which merely repeats the
question, the context and the answer, is not modelled. -/
structure ResponseEnvelope where
  session_id : String
  message : String
  sources : Finset String := {}
  model : String := ""
  nodedetails : NodeDetails := {}
  total_tokens : Nat := 0
  response_time : Nat := 0
  mode : String
  entities : EntityAcc := {}
  error : Option (String × String) := none
  cypher_query : String := ""
  context : List String := []
  user : String := "chatbot"
deriving DecidableEq

/-- The language-model provider class, as dispatched on by
get_total_tokens. -/
inductive Provider where
  | openai
  | azure
  | fireworks
  | groq
  | vertexai
  | bedrock
  | anthropic
  | ollama
  | unrecognized
deriving DecidableEq, Repr

/-- A language-model response with the provider-specific response-metadata
counters read by get_total_tokens. -/
structure AIResp where
  content : String
  token_usage_total_tokens : Nat := 0
  usage_metadata_prompt_token_count : Nat := 0
  usage_total_tokens : Nat := 0
  usage_input_tokens : Nat := 0
  usage_output_tokens : Nat := 0
  prompt_eval_count : Nat := 0
deriving DecidableEq, Repr

/-- get_total_tokens: extract the token count from the metadata shape of the
recognized provider, yielding 0 for an unrecognized one. -/
def get_total_tokens (ai_response : AIResp) (llm : Provider) : Nat :=
  match llm with
  | .openai | .azure | .fireworks | .groq => ai_response.token_usage_total_tokens
  | .vertexai => ai_response.usage_metadata_prompt_token_count
  | .bedrock => ai_response.usage_total_tokens
  | .anthropic => ai_response.usage_input_tokens + ai_response.usage_output_tokens
  | .ollama => ai_response.prompt_eval_count
  | .unrecognized => 0

/-- One intermediate step of the graph-query chain: a dictionary carrying a
query key, a context key, or neither. -/
inductive CypherStep where
  | query (s : String)
  | context (rows : List String)
  | other
deriving DecidableEq, Repr

/-- The graph-query chain output: the result value (possibly null) and the
intermediate steps. -/
structure CypherResult where
  result : Option String
  intermediate_steps : List CypherStep := []
deriving DecidableEq, Repr

/-- The external collaborators consumed by the orchestrator, with the
outcome each would produce when invoked during the turn. -/
structure Collaborators where
  historyRead : Except Unit (List RawEntry) := .ok []
  localMessages : List Msg := []
  env : String → Option String := fun _ => Option.none
  getLLM : String → Except PyErr (Provider × String)
  vectorIndex : Except PyErr Unit := .ok ()
  questionRewrite : Except PyErr String := .ok ""
  retrieverInvoke : Except PyErr (List Doc) := .ok []
  ragInvoke : Except PyErr AIResp := .ok { content := "" }
  graphInvoke : Except PyErr CypherResult := .ok { result := Option.none }

/-- The observable collaborator invocations of a turn, in order. -/
inductive Event where
  | get_llm_call (model : String)
  | vector_index_init
  | question_rewrite_invoke
  | retriever_invoke
  | rag_chain_invoke
  | graph_chain_invoke
  | summarization_spawn
deriving DecidableEq, Repr

/-! ## Retriever construction and the retrieval pipeline -/

/-- The retriever built by create_retriever.  The numeric score threshold
from the missing constants module is passed through unchanged by the code
and is not modelled; no claim depends on it. -/
structure Retriever where
  hybrid : Bool
  top_k : Nat
  effective_search_k : Nat
  filter : Option (List String)
deriving DecidableEq, Repr

/-- The effective-search-ratio lookup in get_neo4j_retriever: the
environment value is used when it is all digits, and 2 otherwise. -/
def effective_search_k (env : String → Option String) : Nat :=
  let s := (env "EFFECTIVE_SEARCH_RATIO").getD "2"
  if s ≠ "" ∧ s.toList.all Char.isDigit then s.toNat?.getD 2 else 2

/-- initialize_neo4j_vector: fail fast when the retrieval query or index
name is missing, then build the hybrid or pure-vector index handle (the
index construction collaborator may fail).  Returns whether the handle is
hybrid. -/
def initialize_neo4j_vector (C : Collaborators) (settings : ChatModeSettings) :
    Except PyErr Bool × List Event :=
  if settings.retrieval_query = "" ∨ settings.index_name = "" then
    (.error (.valueError "Required settings retrieval_query or index_name are missing."), [])
  else
    match C.vectorIndex with
    | .error e => (.error e, [.vector_index_init])
    | .ok _ => (.ok (settings.keyword_index != ""), [.vector_index_init])

/-- create_retriever: restrict to the document-name filter only when a
non-empty filter is supplied and the mode permits filtering. -/
def create_retriever (hybrid : Bool) (document_names : List String)
    (settings : ChatModeSettings) (search_k ef_k : Nat) : Retriever :=
  if document_names ≠ [] ∧ settings.document_filter then
    { hybrid := hybrid, top_k := search_k, effective_search_k := ef_k,
      filter := some document_names }
  else
    { hybrid := hybrid, top_k := search_k, effective_search_k := ef_k,
      filter := Option.none }

/-- get_neo4j_retriever: initialize the vector index and build the
retriever, wrapping any failure in a new configuration exception. -/
def get_neo4j_retriever (C : Collaborators) (document_names : List String)
    (settings : ChatModeSettings) : Except PyErr Retriever × List Event :=
  match initialize_neo4j_vector C settings with
  | (.error _, ev) =>
      (.error (.other "Exception"
        "An error occurred while retrieving the Neo4jVector index or creating the retriever. Please drop and create a new vector index."),
       ev)
  | (.ok hybrid, ev) =>
      let search_k := settings.top_k
      let ef_k := effective_search_k C.env
      (.ok (create_retriever hybrid document_names settings search_k ef_k), ev)

/-- setup_chat: remap the diffbot pseudo-model through the environment,
resolve the language model and build the retriever chain. -/
def setup_chat (C : Collaborators) (model : String) (document_names : List String)
    (settings : ChatModeSettings) :
    Except PyErr (Provider × String × Retriever) × List Event :=
  let model1 :=
    if model = "diffbot" then (C.env "DEFAULT_DIFFBOT_CHAT_MODEL").getD "openai_gpt_4o"
    else model
  match C.getLLM model1 with
  | .error e => (.error e, [.get_llm_call model1])
  | .ok (provider, model_name) =>
      match get_neo4j_retriever C document_names settings with
      | (.error e, ev) => (.error e, .get_llm_call model1 :: ev)
      | (.ok retriever, ev) =>
          (.ok (provider, model_name, retriever), .get_llm_call model1 :: ev)

/-- The invoke of the document retriever chain built by
create_document_retriever_chain: with exactly one message the latest
message text goes straight to the compression retriever; otherwise the
question-rewrite model call runs first. -/
def document_retriever_chain_invoke (C : Collaborators) (messages : List Msg) :
    Except PyErr (List Doc) × List Event :=
  if messages.length = 1 then
    match C.retrieverInvoke with
    | .error e => (.error e, [.retriever_invoke])
    | .ok docs => (.ok docs, [.retriever_invoke])
  else
    match C.questionRewrite with
    | .error e => (.error e, [.question_rewrite_invoke])
    | .ok _ =>
        match C.retrieverInvoke with
        | .error e => (.error e, [.question_rewrite_invoke, .retriever_invoke])
        | .ok docs => (.ok docs, [.question_rewrite_invoke, .retriever_invoke])

/-- retrieve_documents: invoke the retriever chain, converting any failure
anywhere in the pipeline into a missing result instead of an error. -/
def retrieve_documents (C : Collaborators) (messages : List Msg) :
    Option (List Doc) × List Event :=
  match document_retriever_chain_invoke C messages with
  | (.error _, ev) => (Option.none, ev)
  | (.ok docs, ev) => (some docs, ev)

/-! ## Response synthesis -/

/-- The chunk-detail collection loop of get_sources_and_chunks: deduplicate
by the (id, rounded score) pair, preserving first-seen order.  Scores are
modelled as integers, on which the 4-digit rounding is the identity. -/
def collectChunkDetails : List ChunkDetail → List (String × Int) → List ChunkDetail →
    List ChunkDetail × List (String × Int)
  | [], seen, out => (out, seen)
  | cd :: rest, seen, out =>
      if seen.contains (cd.id, cd.score) then collectChunkDetails rest seen out
      else collectChunkDetails rest (seen ++ [(cd.id, cd.score)]) (out ++ [cd])

/-- get_sources_and_chunks: collect the deduplicated chunk details of the
documents whose source was used. -/
def get_sources_and_chunks (sources_used : Finset String) (docs : List Doc) :
    List ChunkDetail :=
  (docs.foldl
    (fun (st : List ChunkDetail × List (String × Int)) doc =>
      match doc.metadata.source with
      | some s =>
          if s ∈ sources_used then
            collectChunkDetails doc.metadata.chunkdetails st.2 st.1
          else st
      | Option.none => st)
    ([], [])).1

/-- The structured result assembled by process_documents. -/
structure SynthResult where
  sources : Finset String := {}
  nodedetails : NodeDetails := {}
  entities : EntityAcc := {}
deriving DecidableEq

/-- process_documents: format the retrieved documents, invoke the
question-answering chain, and shape the structured metadata per mode.  Any
failure propagates to the caller. -/
def process_documents (C : Collaborators) (cutoff_table : List (List String × Nat))
    (provider : Provider) (docs : List Doc) (_question : String)
    (_messages : List Msg) (model : String) (settings_mode : String) :
    Except PyErr (String × SynthResult × Nat × String) × List Event :=
  let fmt := format_documents cutoff_table docs model settings_mode
  let formatted_docs := String.intercalate "\n\n" fmt.formatted_docs
  match C.ragInvoke with
  | .error e => (.error e, [.rag_chain_invoke])
  | .ok ai_response =>
      let result : SynthResult :=
        if settings_mode = CHAT_ENTITY_VECTOR_MODE then
          { nodedetails := { entitydetails := some fmt.entities } }
        else if settings_mode = CHAT_GLOBAL_VECTOR_FULLTEXT_MODE then
          { nodedetails := { communitydetails := fmt.global_communities } }
        else
          { sources := fmt.sources,
            nodedetails := { chunkdetails := get_sources_and_chunks fmt.sources docs },
            entities := { entityids := some (fmt.entities.entityids.getD {}),
                          relationshipids := some (fmt.entities.relationshipids.getD {}) } }
      (.ok (ai_response.content, result, get_total_tokens ai_response provider,
            formatted_docs),
       [.rag_chain_invoke])

/-- The failure envelope built by the top-level except clause of
process_chat_response. -/
def chatFailureEnvelope (settings : ChatModeSettings) (e : PyErr) : ResponseEnvelope :=
  { session_id := "", message := "Something went wrong", total_tokens := 0,
    mode := settings.mode.getD "", error := some (pyErrKindText e) }

/-- process_chat_response: run setup, retrieval and synthesis; a missing or
empty retrieval result degrades to the canned no-documents answer with zero
tokens; any exception is converted into the failure envelope. -/
def process_chat_response (C : Collaborators) (cutoff_table : List (List String × Nat))
    (messages : List Msg) (question model : String) (document_names : List String)
    (settings : ChatModeSettings) : ResponseEnvelope × List Msg × List Event :=
  match setup_chat C model document_names settings with
  | (.error e, ev) => (chatFailureEnvelope settings e, messages, ev)
  | (.ok (provider, model_version, _retriever), ev1) =>
      match retrieve_documents C messages with
      | (some (d :: ds), ev2) =>
          match process_documents C cutoff_table provider (d :: ds) question messages
              model (settings.mode.getD "") with
          | (.error e, ev3) => (chatFailureEnvelope settings e, messages, ev1 ++ ev2 ++ ev3)
          | (.ok (content, result, total_tokens, _formatted), ev3) =>
              let messages2 := messages ++ [{ type := some "ai", content := content }]
              ({ session_id := "", message := content, sources := result.sources,
                 model := model_version, nodedetails := result.nodedetails,
                 total_tokens := total_tokens, mode := settings.mode.getD "",
                 entities := result.entities },
               messages2, ev1 ++ ev2 ++ ev3 ++ [.summarization_spawn])
      | (_docs, ev2) =>
          -- the retrieval result is None (swallowed failure) or the empty
          -- list, both falsy: degrade to the canned no-documents answer
          let content := "I couldn\x27t find any relevant documents to answer your question."
          let messages2 := messages ++ [{ type := some "ai", content := content }]
          ({ session_id := "", message := content, model := model_version,
             total_tokens := 0, mode := settings.mode.getD "" },
           messages2, ev1 ++ ev2 ++ [.summarization_spawn])

/-! ## Graph-query path -/

/-- create_graph_chain: resolve the query-generation and interpretation
models and build the chain; its own except clause swallows every failure
and the function then falls through, returning None. -/
def create_graph_chain (C : Collaborators) (model : String) :
    Option String × List Event :=
  match C.getLLM model with
  | .error _ => (Option.none, [.get_llm_call model])
  | .ok _ =>
      match C.getLLM model with
      | .error _ => (Option.none, [.get_llm_call model, .get_llm_call model])
      | .ok (_, model_name) =>
          (some model_name, [.get_llm_call model, .get_llm_call model])

/-- The cypher-string cleanup applied to the extracted query text. -/
def cleanCypher (s : String) : String :=
  ((s.replace "cypher\n" "").replace "\n" " ").trim

/-- The intermediate-step scan of get_graph_response: the last query step
and the last context step win. -/
def extractSteps : List CypherStep → String → List String → String × List String
  | [], q, c => (q, c)
  | .query s :: rest, _, c => extractSteps rest (cleanCypher s) c
  | .context rows :: rest, q, _ => extractSteps rest q rows
  | .other :: rest, q, c => extractSteps rest q c

/-- The dictionary returned by get_graph_response on success. -/
structure GraphAnswer where
  response : Option String
  cypher_query : String := ""
  context : List String := []
deriving DecidableEq, Repr

/-- get_graph_response: invoke the graph chain and extract the executed
query and context; its own except clause swallows every failure and the
function then falls through, returning None. -/
def get_graph_response (C : Collaborators) (_question : String) :
    Option GraphAnswer × List Event :=
  match C.graphInvoke with
  | .error _ => (Option.none, [.graph_chain_invoke])
  | .ok cypher_res =>
      let qc := extractSteps cypher_res.intermediate_steps "" []
      (some { response := cypher_res.result, cypher_query := qc.1, context := qc.2 },
       [.graph_chain_invoke])

/-- The failure envelope built by the except clause of
process_graph_response when the local model_version has been assigned. -/
def graphFailureEnvelope (model_version : String) (e : PyErr) : ResponseEnvelope :=
  { session_id := "", message := "Something went wrong", model := model_version,
    mode := "graph", error := some (pyErrKindText e) }

/-- process_graph_response: delegate to the graph chain and build the graph
envelope.  When create_graph_chain has swallowed a failure and returned
None, unpacking it raises TypeError and the except clause then reads the
never-assigned local model_version, so an UnboundLocalError propagates out
instead of the failure envelope. -/
def process_graph_response (C : Collaborators) (model question : String)
    (messages : List Msg) : Except PyErr ResponseEnvelope × List Msg × List Event :=
  match create_graph_chain C model with
  | (Option.none, ev) =>
      (.error (.unboundLocal "model_version"), messages, ev)
  | (some model_version, ev1) =>
      match get_graph_response C question with
      | (Option.none, ev2) =>
          (.ok (graphFailureEnvelope model_version
                  (.attributeError "NoneType object has no attribute get")),
           messages, ev1 ++ ev2)
      | (some graph_response, ev2) =>
          match graph_response.response with
          | Option.none =>
              (.ok (graphFailureEnvelope model_version
                      (.validationError "AIMessage content must not be None")),
               messages, ev1 ++ ev2)
          | some ai_response_content =>
              let messages2 :=
                messages ++ [{ type := some "ai", content := ai_response_content }]
              (.ok { session_id := "", message := ai_response_content,
                     model := model_version,
                     cypher_query := graph_response.cypher_query,
                     context := graph_response.context, mode := "graph" },
               messages2, ev1 ++ ev2 ++ [.summarization_spawn])

/-! ## The orchestrator QA_RAG -/

/-- The body of QA_RAG up to the final session-id assignment: load and
validate the history, append the user question, then dispatch on the mode.
Failures of get_chat_mode_settings are re-raised and the UnboundLocalError
of the graph path propagates; every other path yields an envelope whose
session_id is still the empty placeholder. -/
def QA_RAG_inner (C : Collaborators) (cutoff_table : List (List String × Nat))
    (settings_map : SettingsMap) (heap : SettingsHeap)
    (loads : String → Except Unit PyJson) (model question : String)
    (document_names : DocNamesInput) (mode : String) (write_access : Bool) :
    Except PyErr ResponseEnvelope × List Msg × SettingsHeap × List Event :=
  let messages0 :=
    if write_access then validate_and_cache_messages C.historyRead else C.localMessages
  let messages := messages0 ++ [{ type := some "human", content := question }]
  if mode = CHAT_GRAPH_MODE then
    let g := process_graph_response C model question messages
    (g.1, g.2.1, heap, g.2.2)
  else
    match get_chat_mode_settings settings_map heap mode with
    | .error e => (.error e, messages, heap, [])
    | .ok (r, heap2) =>
        let chat_mode_settings := heap2 r
        let parsed_document_names := parse_document_names loads document_names
        if parsed_document_names ≠ [] ∧ chat_mode_settings.document_filter = false then
          (.ok { session_id := "",
                 message := "Please deselect all documents in the table before using this chat mode",
                 total_tokens := 0, mode := chat_mode_settings.mode.getD "" },
           messages, heap2, [])
        else
          let pcr := process_chat_response C cutoff_table messages question model
            parsed_document_names chat_mode_settings
          (.ok pcr.1, pcr.2.1, heap2, pcr.2.2)

/-- The outcome of a QA_RAG call: the returned envelope or the escaped
exception, the in-memory message list, the settings heap and the event
trace afterwards. -/
structure QAResult where
  response : Except PyErr ResponseEnvelope
  messages : List Msg
  heap : SettingsHeap
  events : List Event

/-- QA_RAG: run the body and overwrite the session_id of the returned
envelope with the caller-supplied session id; an escaped exception skips
the assignment. -/
def QA_RAG (C : Collaborators) (cutoff_table : List (List String × Nat))
    (settings_map : SettingsMap) (heap : SettingsHeap)
    (loads : String → Except Unit PyJson) (model question : String)
    (document_names : DocNamesInput) (session_id mode : String)
    (write_access : Bool) : QAResult :=
  match QA_RAG_inner C cutoff_table settings_map heap loads model question
      document_names mode write_access with
  | (.error e, msgs, h, ev) =>
      { response := .error e, messages := msgs, heap := h, events := ev }
  | (.ok env, msgs, h, ev) =>
      { response := .ok { env with session_id := session_id },
        messages := msgs, heap := h, events := ev }

/-! ## Concrete demonstration values -/

/-- A representative settings dictionary, as stored in the configuration
map before any resolution (its mode key absent). -/
def demoSettings : ChatModeSettings :=
  { retrieval_query := "RETURN node.text AS text", index_name := "vector",
    node_label := "Chunk", embedding_node_property := "embedding",
    text_node_properties := ["text"], top_k := 5, document_filter := true }

/-- A configuration map with the default mode bound to reference 0. -/
def demoMap : SettingsMap :=
  { refOf := fun s => if s = "vector" then some 0 else Option.none }

/-- A heap in which every reference holds the representative settings. -/
def demoHeap : SettingsHeap := fun _ => demoSettings

/-- A representative settings dictionary of a mode that forbids document
filtering. -/
def demoNoFilterSettings : ChatModeSettings :=
  { demoSettings with document_filter := false }

/-- A heap holding the no-filtering settings everywhere. -/
def demoNoFilterHeap : SettingsHeap := fun _ => demoNoFilterSettings

/-- A concrete json.loads collaborator covering the strings exercised by
the witnesses. -/
def loadsDemo : String → Except Unit PyJson
  | "[]" => .ok (.arr [])
  | "null" => .ok .null
  | "[\"a \", \"b\"]" => .ok (.arr [.str "a ", .str "b"])
  | _ => .error ()

/-- A collaborator set whose language-model resolution fails. -/
def demoFailLLMC : Collaborators :=
  { getLLM := fun _ => .error (.valueError "unsupported model") }

/-- A collaborator set on which every stage succeeds: empty durable
history, a single retrieved document and a synthesized answer. -/
def demoOkC : Collaborators :=
  { historyRead := .ok [],
    getLLM := fun m => .ok (.openai, m),
    retrieverInvoke := .ok [{ page_content := "chunk text",
                              metadata := { source := some "doc.pdf" } }],
    ragInvoke := .ok { content := "the answer", token_usage_total_tokens := 42 } }

/-- A collaborator set whose retriever invocation fails while everything
before it succeeds. -/
def demoRetrFailC : Collaborators :=
  { historyRead := .ok [],
    getLLM := fun m => .ok (.openai, m),
    retrieverInvoke := .error (.other "ServiceUnavailable" "index unreachable") }

/-- A raw stored history with two well-formed and two malformed records. -/
def demoRaw : List RawEntry :=
  [some { type := some "human", content := "hi" },
   Option.none,
   some { type := Option.none, content := "corrupt" },
   some { type := some "ai", content := "hello" }]

/-! ## Helper lemmas -/

/-- Stripping a list of JSON strings succeeds and strips each element. -/
theorem mapStripElems_strings (l : List String) :
    mapStripElems (l.map PyJson.str) = .ok (l.map pyStrip) := by
  induction l with
  | nil => rfl
  | cons a t ih => simp [mapStripElems, ih, Except.map]

/-- The validated view is the well-formed sublist of the raw records. -/
theorem validMessages_map_some (raw : List RawEntry) :
    (validMessages raw).map some = raw.filter entryValid := by
  induction raw with
  | nil => rfl
  | cons e rest ih =>
      cases e with
      | none => simpa [validMessages, entryValid] using ih
      | some m =>
          cases hm : m.type with
          | none => simpa [validMessages, entryValid, hm] using ih
          | some t => simpa [validMessages, entryValid, hm] using ih

/-- Every message in the validated view has a resolvable type. -/
theorem validMessages_all_valid (raw : List RawEntry) :
    ∀ m ∈ validMessages raw, m.type.isSome := by
  intro m hm
  rcases List.mem_filterMap.mp hm with ⟨e, _, he⟩
  cases e with
  | none => simp at he
  | some m2 =>
      by_cases h2 : m2.type.isSome
      · simp [h2] at he
        exact he ▸ h2
      · simp [h2] at he

/-! ## Claim theorems -/

/-- Claim C1 (code bug): the claim states that no exception ever escapes
QA_RAG.  On the graph path, when the language-model resolution inside
create_graph_chain fails, create_graph_chain swallows the failure and
returns None, the unpacking raises TypeError and the except clause of
process_graph_response then reads the never-assigned local model_version,
so an UnboundLocalError propagates out of QA_RAG instead of the safe
failure envelope. -/
theorem C1_graph_path_exception_escapes :
    (QA_RAG demoFailLLMC [] demoMap demoHeap loadsDemo "gpt" "what is X"
        DocNamesInput.none "s1" CHAT_GRAPH_MODE true).response =
      .error (.unboundLocal "model_version") := by
  rfl

/-- Claim C2: the defensive document-name parse of QA_RAG maps a missing
value, a non-string value, a blank string, the strings null and [], and every malformed-JSON string to the empty
list without raising, and maps a well-formed JSON array of strings to the
list of its elements with surrounding whitespace stripped. -/
theorem C2_document_names_normalization
    (loads : String → Except Unit PyJson)
    (hempty : loads "[]" = .ok (.arr []))
    (hnull : loads "null" = .ok .null) :
    parse_document_names loads DocNamesInput.none = [] ∧
    parse_document_names loads DocNamesInput.nonString = [] ∧
    (∀ s, pyStrip s = "" → parse_document_names loads (.str s) = []) ∧
    parse_document_names loads (.str "null") = [] ∧
    parse_document_names loads (.str "[]") = [] ∧
    (∀ s, pyStrip s ≠ "" → loads s = .error () →
      parse_document_names loads (.str s) = []) ∧
    (∀ (s : String) (l : List String), pyStrip s ≠ "" →
      loads s = .ok (.arr (l.map PyJson.str)) →
      parse_document_names loads (.str s) = l.map pyStrip) := by
  refine ⟨?_, ?_, ?_, ?_, ?_, ?_, ?_⟩
  · simp [parse_document_names, hempty, parseLoaded, pyMapStrip, mapStripElems]
  · simp [parse_document_names, hempty, parseLoaded, pyMapStrip, mapStripElems]
  · intro s hs
    simp [parse_document_names, hs, hempty, parseLoaded, pyMapStrip, mapStripElems]
  · have hns : pyStrip "null" = "null" := by decide
    simp [parse_document_names, hns, hnull, parseLoaded, pyMapStrip]
  · have hbr : pyStrip "[]" = "[]" := by decide
    simp [parse_document_names, hbr, hempty, parseLoaded, pyMapStrip, mapStripElems]
  · intro s hs herr
    simp [parse_document_names, hs, herr, parseLoaded]
  · intro s l hs hok
    simp [parse_document_names, hs, hok, parseLoaded, pyMapStrip, mapStripElems_strings]

/-- Witness for C2 at the concrete json.loads collaborator. -/
theorem C2_witness :
    parse_document_names loadsDemo DocNamesInput.none = [] ∧
    parse_document_names loadsDemo (.str "  ") = [] ∧
    parse_document_names loadsDemo (.str "null") = [] ∧
    parse_document_names loadsDemo (.str "not json") = [] ∧
    parse_document_names loadsDemo (.str "[\"a \", \"b\"]") = ["a", "b"] := by
  have h := C2_document_names_normalization loadsDemo rfl rfl
  refine ⟨h.1, h.2.2.1 "  " (by decide), h.2.2.2.1, ?_, ?_⟩
  · exact h.2.2.2.2.2.1 "not json" (by decide) rfl
  · have h2 := h.2.2.2.2.2.2 "[\"a \", \"b\"]" ["a ", "b"] (by decide) rfl
    rw [h2]
    decide

/-- Claim C6 (code bug): on the default durable history the claim fails
even though the message sequence is non-empty and the model call succeeds:
SafeNeo4jChatMessageHistory defines no add_user_message, so after the
clear the marker append raises AttributeError, the except clause of
summarize_and_log swallows it, and the call returns false with the history
emptied instead of holding the marker and the summary.  The theorem
evaluates the embedded code at such a failing input. -/
theorem C6_durable_summarize_loses_history :
    summarize_and_log
      (fun _ => .ok { type := some "ai", content := "summary text" })
      .safeNeo4j
      [{ type := some "human", content := "old" }]
      [{ type := some "human", content := "old" }] =
      (false, [], true) := rfl

/-- Claim C7: on an empty stored message sequence summarize_and_log
returns false, leaves the history unchanged and does not invoke the model,
on either history backend. -/
theorem C7_summarize_empty (invokeChain : List Msg → Except PyErr Msg)
    (backend : HistoryBackend) (history : List Msg) :
    summarize_and_log invokeChain backend history [] = (false, history, false) := rfl

/-- Claim C4: on a raw stored sequence containing at least one malformed
entry, the validated view has exactly the well-formed entries in their
original relative order (hence its length is their count and it contains
no malformed entry), and a failing raw read yields the empty view. -/
theorem C4_validated_view (raw : List RawEntry)
    (_hmal : raw.any (fun e => !entryValid e)) :
    (validate_and_cache_messages (.ok raw)).map some = raw.filter entryValid ∧
    (validate_and_cache_messages (.ok raw)).length = (raw.filter entryValid).length ∧
    (∀ m ∈ validate_and_cache_messages (.ok raw), m.type.isSome) ∧
    validate_and_cache_messages (.error ()) = [] := by
  refine ⟨validMessages_map_some raw, ?_, validMessages_all_valid raw, rfl⟩
  have h := congrArg List.length (validMessages_map_some raw)
  simpa using h

/-- Witness for C4 at a concrete corrupted history. -/
theorem C4_witness :
    (demoRaw.any (fun e => !entryValid e)) = true ∧
    (validate_and_cache_messages (.ok demoRaw)).map some = demoRaw.filter entryValid ∧
    (validate_and_cache_messages (.ok demoRaw)).length = 2 ∧
    validate_and_cache_messages (.error ()) = [] := by
  have h := C4_validated_view demoRaw (by decide)
  exact ⟨by decide, h.1, by decide, h.2.2.2⟩

/-- Claim C8 counterexample: resolving an unknown mode from a concrete
configuration map updates the shared default-mode settings dictionary in
place (its mode key appears), so the map is not left unchanged. -/
theorem C8_counterexample :
    get_chat_mode_settings demoMap demoHeap "fancy" =
      .ok (0, Function.update demoHeap 0 { demoSettings with mode := some "fancy" }) ∧
    Function.update demoHeap 0 { demoSettings with mode := some "fancy" } 0 ≠
      demoHeap 0 := by
  constructor
  · rfl
  · simp only [Function.update_same]
    intro h
    have := congrArg ChatModeSettings.mode h
    simp [demoHeap, demoSettings] at this

/-- Claim C8 as amended: resolving settings does mutate the shared map
through the alias it stores, but only by setting the mode key of the
resolved entry to the requested mode name; the other fields of the
resolved entry and all other entries are unchanged. -/
theorem C8_amended_settings_mutation (settings_map : SettingsMap)
    (heap : SettingsHeap) (mode : String) (dref : Nat)
    (hdef : settings_map.refOf CHAT_DEFAULT_MODE = some dref) :
    get_chat_mode_settings settings_map heap mode =
      .ok ((settings_map.refOf mode).getD dref,
           Function.update heap ((settings_map.refOf mode).getD dref)
             { heap ((settings_map.refOf mode).getD dref) with mode := some mode }) ∧
    ({ Function.update heap ((settings_map.refOf mode).getD dref)
         { heap ((settings_map.refOf mode).getD dref) with mode := some mode }
         ((settings_map.refOf mode).getD dref) with
       mode := (heap ((settings_map.refOf mode).getD dref)).mode } =
      heap ((settings_map.refOf mode).getD dref)) ∧
    (∀ j, j ≠ (settings_map.refOf mode).getD dref →
      Function.update heap ((settings_map.refOf mode).getD dref)
        { heap ((settings_map.refOf mode).getD dref) with mode := some mode } j =
        heap j) := by
  refine ⟨?_, ?_, ?_⟩
  · unfold get_chat_mode_settings
    rw [hdef]
  · simp only [Function.update_same]
  · intro j hj
    exact Function.update_noteq hj _ heap

/-- Witness for C8 as amended, at the concrete map and an unknown mode. -/
theorem C8_amended_witness :
    get_chat_mode_settings demoMap demoHeap "fancy" =
      .ok (0, Function.update demoHeap 0 { demoHeap 0 with mode := some "fancy" }) ∧
    Function.update demoHeap 0 { demoHeap 0 with mode := some "fancy" } 1 =
      demoHeap 1 := by
  have h := C8_amended_settings_mutation demoMap demoHeap "fancy" 0 rfl
  exact ⟨h.1, h.2.2 1 (by decide)⟩

/-- Claim C3: for a non-graph mode whose resolved settings forbid document
filtering and a non-empty normalized filter, QA_RAG returns the fixed
advisory envelope and invokes no collaborator at all: the event trace is
empty, so in particular neither the retriever nor the language model
runs. -/
theorem C3_policy_gate_short_circuits
    (C : Collaborators) (cutoff_table : List (List String × Nat))
    (settings_map : SettingsMap) (heap : SettingsHeap)
    (loads : String → Except Unit PyJson) (model question : String)
    (document_names : DocNamesInput) (session_id mode : String)
    (write_access : Bool) (dref : Nat)
    (hdef : settings_map.refOf CHAT_DEFAULT_MODE = some dref)
    (hmode : mode ≠ CHAT_GRAPH_MODE)
    (hfilter : (heap ((settings_map.refOf mode).getD dref)).document_filter = false)
    (hnames : parse_document_names loads document_names ≠ []) :
    (QA_RAG C cutoff_table settings_map heap loads model question document_names
        session_id mode write_access).response =
      .ok { session_id := session_id,
            message := "Please deselect all documents in the table before using this chat mode",
            total_tokens := 0, mode := mode } ∧
    (QA_RAG C cutoff_table settings_map heap loads model question document_names
        session_id mode write_access).events = [] := by
  unfold QA_RAG QA_RAG_inner get_chat_mode_settings
  rw [hdef]
  simp only [if_neg hmode]
  rw [if_pos]
  · constructor <;> simp [Function.update_same]
  · refine ⟨hnames, ?_⟩
    rw [Function.update_same]
    exact hfilter

/-- Witness for C3 at a concrete no-filtering mode and non-empty filter. -/
theorem C3_witness :
    (QA_RAG demoOkC [] demoMap demoNoFilterHeap loadsDemo "gpt" "what is X"
        (.str "[\"a \", \"b\"]") "s1" "vector" true).response =
      .ok { session_id := "s1",
            message := "Please deselect all documents in the table before using this chat mode",
            total_tokens := 0, mode := "vector" } ∧
    (QA_RAG demoOkC [] demoMap demoNoFilterHeap loadsDemo "gpt" "what is X"
        (.str "[\"a \", \"b\"]") "s1" "vector" true).events = [] :=
  C3_policy_gate_short_circuits demoOkC [] demoMap demoNoFilterHeap loadsDemo
    "gpt" "what is X" (.str "[\"a \", \"b\"]") "s1" "vector" true 0
    rfl (by decide) rfl (by decide)

/-- Claim C10: whenever QA_RAG returns an envelope (rather than letting an
exception escape), its session_id field equals the caller-supplied session
id, on every path: the final assignment overwrites the empty placeholder
each inner path put there. -/
theorem C10_session_id_overwritten
    (C : Collaborators) (cutoff_table : List (List String × Nat))
    (settings_map : SettingsMap) (heap : SettingsHeap)
    (loads : String → Except Unit PyJson) (model question : String)
    (document_names : DocNamesInput) (session_id mode : String)
    (write_access : Bool) (env : ResponseEnvelope)
    (h : (QA_RAG C cutoff_table settings_map heap loads model question
        document_names session_id mode write_access).response = .ok env) :
    env.session_id = session_id := by
  unfold QA_RAG at h
  rcases hi : QA_RAG_inner C cutoff_table settings_map heap loads model question
      document_names mode write_access with ⟨res, msgs, hp, ev⟩
  rw [hi] at h
  cases res with
  | error e => simp at h
  | ok env0 =>
      simp only [Except.ok.injEq] at h
      rw [← h]

/-- Witness for C10: a fully successful retrieval turn carries the caller
session id in its envelope. -/
theorem C10_witness :
    (QA_RAG demoOkC [] demoMap demoHeap loadsDemo "gpt" "what is X"
        DocNamesInput.none "s1" "vector" true).response.map
      ResponseEnvelope.session_id = .ok "s1" := by
  obtain ⟨env, henv⟩ :
      ∃ env, (QA_RAG demoOkC [] demoMap demoHeap loadsDemo "gpt" "what is X"
        DocNamesInput.none "s1" "vector" true).response = .ok env := ⟨_, rfl⟩
  rw [henv]
  simp only [Except.map]
  exact congrArg Except.ok
    (C10_session_id_overwritten demoOkC [] demoMap demoHeap loadsDemo "gpt"
      "what is X" DocNamesInput.none "s1" "vector" true env henv)

/-- A failing retriever invocation makes process_chat_response return the
canned no-documents envelope with zero tokens, whatever the conversation
length and whether or not the question-rewrite call also fails. -/
theorem process_chat_response_retrieval_failure
    (C : Collaborators) (cutoff_table : List (List String × Nat))
    (messages : List Msg) (question model : String)
    (document_names : List String) (settings : ChatModeSettings)
    (provider : Provider) (model_name : String) (e : PyErr)
    (hdiffbot : model ≠ "diffbot")
    (hllm : C.getLLM model = .ok (provider, model_name))
    (hrq : settings.retrieval_query ≠ "") (hin : settings.index_name ≠ "")
    (hvec : C.vectorIndex = .ok ()) (hretr : C.retrieverInvoke = .error e) :
    (process_chat_response C cutoff_table messages question model document_names
        settings).1 =
      { session_id := "",
        message := "I couldn\x27t find any relevant documents to answer your question.",
        model := model_name, total_tokens := 0, mode := settings.mode.getD "" } := by
  unfold process_chat_response setup_chat get_neo4j_retriever
    initialize_neo4j_vector retrieve_documents document_retriever_chain_invoke
  simp only [if_neg hdiffbot, hllm, if_neg (not_or.mpr ⟨hrq, hin⟩), hvec, hretr]
  by_cases hlen : messages.length = 1
  · simp [hlen]
  · simp only [if_neg hlen]
    cases hq : C.questionRewrite with
    | error eq => simp
    | ok sq => simp

/-- Claim C5: when the retrieval pipeline collaborator raises while setup
has succeeded, the turn still completes: QA_RAG returns the canned
no-documents envelope with zero total tokens, and no exception escapes. -/
theorem C5_retrieval_failure_degrades
    (C : Collaborators) (cutoff_table : List (List String × Nat))
    (settings_map : SettingsMap) (heap : SettingsHeap)
    (loads : String → Except Unit PyJson) (model question : String)
    (document_names : DocNamesInput) (session_id mode : String)
    (write_access : Bool) (dref : Nat) (provider : Provider) (model_name : String)
    (e : PyErr)
    (hdef : settings_map.refOf CHAT_DEFAULT_MODE = some dref)
    (hmode : mode ≠ CHAT_GRAPH_MODE)
    (hdiffbot : model ≠ "diffbot")
    (hparse : parse_document_names loads document_names = [])
    (hllm : C.getLLM model = .ok (provider, model_name))
    (hrq : (heap ((settings_map.refOf mode).getD dref)).retrieval_query ≠ "")
    (hin : (heap ((settings_map.refOf mode).getD dref)).index_name ≠ "")
    (hvec : C.vectorIndex = .ok ())
    (hretr : C.retrieverInvoke = .error e) :
    (QA_RAG C cutoff_table settings_map heap loads model question document_names
        session_id mode write_access).response =
      .ok { session_id := session_id,
            message := "I couldn\x27t find any relevant documents to answer your question.",
            model := model_name, total_tokens := 0, mode := mode } := by
  unfold QA_RAG QA_RAG_inner get_chat_mode_settings
  rw [hdef]
  simp only [if_neg hmode, Function.update_same]
  rw [if_neg]
  · rw [process_chat_response_retrieval_failure C cutoff_table _ question model _
      { heap ((settings_map.refOf mode).getD dref) with mode := some mode }
      provider model_name e hdiffbot hllm hrq hin hvec hretr]
    simp
  · rw [hparse]
    simp

/-- Witness for C5 at a concrete failing retriever. -/
theorem C5_witness :
    (QA_RAG demoRetrFailC [] demoMap demoHeap loadsDemo "gpt" "what is X"
        DocNamesInput.none "s1" "vector" true).response =
      .ok { session_id := "s1",
            message := "I couldn\x27t find any relevant documents to answer your question.",
            model := "gpt", total_tokens := 0, mode := "vector" } :=
  C5_retrieval_failure_degrades demoRetrFailC [] demoMap demoHeap loadsDemo
    "gpt" "what is X" DocNamesInput.none "s1" "vector" true 0 Provider.openai
    "gpt" (.other "ServiceUnavailable" "index unreachable")
    rfl (by decide) (by decide) (by decide) rfl (by decide) (by decide) rfl rfl

/-- The context block of one loop iteration: the formatted block is
appended exactly when the per-document body completes. -/
theorem format_doc_step_formatted_docs (mode : String) (acc : FormatAcc) (d : Doc) :
    (format_doc_step mode acc d).formatted_docs =
      acc.formatted_docs ++
        (if doc_format_ok mode d then
          [formatDocBlock (d.metadata.source.getD "unknown") d.page_content]
         else []) := by
  rcases d with ⟨pc, ⟨src, ents, comms, chunks⟩, st⟩
  unfold format_doc_step doc_format_ok entitiesStep communitiesStep
  by_cases hm : mode = CHAT_ENTITY_VECTOR_MODE
  · cases ents with
    | none =>
        cases comms with
        | none => simp
        | some entries =>
            by_cases hall : entries.all (fun e => e.id.isSome)
            · simp [hall]
            · simp [hall]
    | some em =>
        cases em with
        | list l =>
            cases comms with
            | none => simp [hm]
            | some entries =>
                by_cases hall : entries.all (fun e => e.id.isSome)
                · simp [hm, hall]
                · simp [hm, hall]
        | dict eids rids =>
            cases eids with
            | none =>
                cases comms with
                | none => simp [hm]
                | some entries =>
                    by_cases hall : entries.all (fun e => e.id.isSome)
                    · simp [hm, hall]
                    · simp [hm, hall]
            | some l => simp [hm]
  · cases ents with
    | none =>
        cases comms with
        | none => simp
        | some entries =>
            by_cases hall : entries.all (fun e => e.id.isSome)
            · simp [hall]
            · simp [hall]
    | some em =>
        cases em with
        | list l =>
            cases comms with
            | none => simp [hm]
            | some entries =>
                by_cases hall : entries.all (fun e => e.id.isSome)
                · simp [hm, hall]
                · simp [hm, hall]
        | dict eids rids =>
            cases comms with
            | none => simp [hm]
            | some entries =>
                by_cases hall : entries.all (fun e => e.id.isSome)
                · simp [hm, hall]
                · simp [hm, hall]

/-- The formatting loop appends, in order, the blocks of exactly the
documents whose body completes. -/
theorem foldl_format_doc_step (mode : String) (docs : List Doc) (acc : FormatAcc) :
    (docs.foldl (format_doc_step mode) acc).formatted_docs =
      acc.formatted_docs ++
        (docs.filter (doc_format_ok mode)).map
          (fun d => formatDocBlock (d.metadata.source.getD "unknown") d.page_content) := by
  induction docs generalizing acc with
  | nil => simp
  | cons d rest ih =>
      rw [List.foldl_cons, ih, format_doc_step_formatted_docs]
      by_cases hok : doc_format_ok mode d
      · simp [hok]
      · simp [hok]

/-- Claim C9 counterexample: a single candidate document whose community
metadata lacks the id key is selected by sort-and-truncate but raises in
the formatting loop, so the formatted context does not contain it: the
context is not exactly the sorted-truncated document list. -/
theorem C9_counterexample :
    (([badCommunityDoc].insertionSort scoreDesc).take
        (prompt_token_cutoff [] "gpt")) = [badCommunityDoc] ∧
    (format_documents [] [badCommunityDoc] "gpt" "vector").formatted_docs ≠
      ((([badCommunityDoc].insertionSort scoreDesc).take
          (prompt_token_cutoff [] "gpt")).map
        (fun d => formatDocBlock (d.metadata.source.getD "unknown") d.page_content)) := by
  exact ⟨rfl, by decide⟩

/-- Claim C9 as amended: the documents selected for synthesis are the input
documents stably sorted by descending state similarity score and truncated
to the model-specific cutoff of the lookup table (default 4); the formatted
context contains, in order, the blocks of exactly those selected documents
whose per-document metadata processing completes (a document that raises is
skipped), so the context holds at most cutoff-many documents; the sorted
list is a descending-sorted permutation of the input. -/
theorem C9_amended_format_documents (cutoff_table : List (List String × Nat))
    (documents : List Doc) (model mode : String) :
    (format_documents cutoff_table documents model mode).formatted_docs =
      (((documents.insertionSort scoreDesc).take
          (prompt_token_cutoff cutoff_table model)).filter (doc_format_ok mode)).map
        (fun d => formatDocBlock (d.metadata.source.getD "unknown") d.page_content) ∧
    (format_documents cutoff_table documents model mode).formatted_docs.length ≤
      prompt_token_cutoff cutoff_table model ∧
    (documents.insertionSort scoreDesc).Sorted scoreDesc ∧
    (documents.insertionSort scoreDesc).Perm documents := by
  have hmain :
      (format_documents cutoff_table documents model mode).formatted_docs =
        (((documents.insertionSort scoreDesc).take
            (prompt_token_cutoff cutoff_table model)).filter (doc_format_ok mode)).map
          (fun d => formatDocBlock (d.metadata.source.getD "unknown") d.page_content) := by
    unfold format_documents
    simpa using foldl_format_doc_step mode
      ((documents.insertionSort scoreDesc).take (prompt_token_cutoff cutoff_table model)) {}
  refine ⟨hmain, ?_, ?_, ?_⟩
  · rw [hmain, List.length_map]
    calc (((documents.insertionSort scoreDesc).take
            (prompt_token_cutoff cutoff_table model)).filter (doc_format_ok mode)).length
        ≤ ((documents.insertionSort scoreDesc).take
            (prompt_token_cutoff cutoff_table model)).length :=
          List.length_filter_le _ _
      _ ≤ prompt_token_cutoff cutoff_table model := List.length_take_le _ _
  · exact List.sorted_insertionSort scoreDesc documents
  · exact List.perm_insertionSort scoreDesc documents

end QAIntegration
